import Mathlib

/-!
Verification of the HTTP/2 connection driver of `maru/mhd-http2`
(`src/microhttpd/http2/h2_connection.c`) and of the byte-order helpers
(`src/microhttpd/mhd_bithelpers.h`), as a shallow embedding in Lean 4.

Bytes are modelled as `Nat` (values below 256 where it matters), buffers
as `List Nat`, machine-word arithmetic as `Nat` with explicit `% 2 ^ 32`.
External collaborators (the socket primitives `recv_cls`/`send_cls`, the
allocator `try_grow_read_buffer`, the nghttp2 session calls and the
header builder) are modelled as oracle inputs passed to each phase
function, mirroring the sentinel/return-value contracts of the C code.
-/

/-! ## Protocol negotiation: `h2_is_h2_preface` -/

/-- Byte list of `H2_MAGIC_TOKEN` = "PRI * HTTP/2.0\r\n\r\nSM\r\n\r\n"
(`h2_connection.c`, line 35). -/
def H2_MAGIC_TOKEN : List Nat :=
  [80, 82, 73, 32, 42, 32, 72, 84, 84, 80, 47, 50, 46, 48,
   13, 10, 13, 10, 83, 77, 13, 10, 13, 10]

/-- The constant `H2_MAGIC_TOKEN_LEN_MIN` (line 36). -/
def H2_MAGIC_TOKEN_LEN_MIN : Nat := 16

/-- The constant `H2_MAGIC_TOKEN_LEN` (line 37). -/
def H2_MAGIC_TOKEN_LEN : Nat := 24

/-- Embedding of `h2_is_h2_preface` (lines 429-441).  The connection's
read buffer is modelled as the list of its filled bytes, so
`read_buffer_offset` is `buf.length`.  `memcmp (tok, buf, n) == 0` is
modelled as equality of the length-`n` prefixes. -/
def h2_is_h2_preface (buf : List Nat) : Bool :=
  if buf.length ≥ H2_MAGIC_TOKEN_LEN then
    buf.take H2_MAGIC_TOKEN_LEN == H2_MAGIC_TOKEN
  else if buf.length ≥ H2_MAGIC_TOKEN_LEN_MIN then
    buf.take H2_MAGIC_TOKEN_LEN_MIN == H2_MAGIC_TOKEN.take H2_MAGIC_TOKEN_LEN_MIN
  else
    false

/-! ## Byte-order helpers: `mhd_bithelpers.h` -/

/-- Embedding of the portable (byte-wise) branch of `_MHD_PUT_32BIT_BE`
(`mhd_bithelpers.h`, lines 97-102): the value is first truncated to
`uint32_t`, then its four bytes are stored most-significant first.
The result lists the bytes `addr[0], addr[1], addr[2], addr[3]`. -/
def MHD_PUT_32BIT_BE (value32 : Nat) : List Nat :=
  let v := value32 % 2 ^ 32
  [(v >>> 24) % 256, (v >>> 16) % 256, (v >>> 8) % 256, v % 256]

/-- Embedding of the portable (byte-wise) branch of `_MHD_GET_32BIT_BE`
(`mhd_bithelpers.h`, lines 113-117): bytes are combined with shifts and
bitwise or, most-significant first.  Addresses out of range read 0. -/
def MHD_GET_32BIT_BE (addr : List Nat) : Nat :=
  (addr.getD 0 0 <<< 24) ||| (addr.getD 1 0 <<< 16) |||
    (addr.getD 2 0 <<< 8) ||| addr.getD 3 0

/-- Bitwise or of a shifted value with a value fitting entirely below the
shift is plain addition. -/
theorem lor_mul_two_pow_add (n : Nat) :
    ∀ a b : Nat, b < 2 ^ n → (a * 2 ^ n) ||| b = a * 2 ^ n + b := by
  induction n with
  | zero =>
    intro a b hb
    interval_cases b
    simp
  | succ n ih =>
    intro a b hb
    have hb2 : b / 2 < 2 ^ n := by
      have : b < 2 ^ n * 2 := by
        rw [Nat.pow_succ] at hb; omega
      omega
    have h1 : a * 2 ^ (n + 1) = Nat.bit false (a * 2 ^ n) := by
      simp [Nat.bit, Nat.pow_succ]; ring
    have h2 : b = Nat.bit (decide (b % 2 = 1)) (b / 2) := by
      rcases Nat.mod_two_eq_zero_or_one b with h | h <;>
        simp [Nat.bit_val, h] <;> omega
    rw [h1, h2, Nat.lor_bit, ih _ _ hb2]
    simp only [Bool.false_or, Nat.bit_val, Bool.toNat_false]
    omega

/-- C10: writing a 32-bit value big-endian byte-wise and reading it back
yields the value modulo `2 ^ 32`: the put/get pair is a round trip
(arithmetic-exact, independent of host byte order; on a big-endian host
both macros are a direct word store/load and the round trip is a plain
store-then-load of the same word). -/
theorem MHD_PUT_GET_32BIT_BE_roundtrip (v : Nat) :
    MHD_GET_32BIT_BE (MHD_PUT_32BIT_BE v) = v % 2 ^ 32 := by
  unfold MHD_GET_32BIT_BE MHD_PUT_32BIT_BE
  simp only [List.getD, List.get?, Option.getD_some,
    Nat.shiftLeft_eq, Nat.shiftRight_eq_div_pow]
  have hv : v % 2 ^ 32 < 2 ^ 32 := Nat.mod_lt _ (by norm_num)
  set w := v % 2 ^ 32 with hw
  have b3 : w % 256 < 2 ^ 8 := by have := Nat.mod_lt w (show 0 < 256 by norm_num); omega
  have b2 : w / 2 ^ 8 % 256 < 2 ^ 8 := by
    have := Nat.mod_lt (w / 2 ^ 8) (show 0 < 256 by norm_num); omega
  have b1 : w / 2 ^ 16 % 256 < 2 ^ 8 := by
    have := Nat.mod_lt (w / 2 ^ 16) (show 0 < 256 by norm_num); omega
  rw [Nat.lor_assoc, Nat.lor_assoc]
  rw [lor_mul_two_pow_add 8 (w / 2 ^ 8 % 256) (w % 256) b3]
  have t1lt : (w / 2 ^ 8 % 256) * 2 ^ 8 + w % 256 < 2 ^ 16 := by
    have : w / 2 ^ 8 % 256 ≤ 255 := by omega
    nlinarith [b3]
  rw [lor_mul_two_pow_add 16 _ _ t1lt]
  have t2lt : (w / 2 ^ 16 % 256) * 2 ^ 16 +
      ((w / 2 ^ 8 % 256) * 2 ^ 8 + w % 256) < 2 ^ 24 := by
    have : w / 2 ^ 16 % 256 ≤ 255 := by omega
    nlinarith [t1lt]
  rw [lor_mul_two_pow_add 24 _ _ t2lt]
  norm_num
  omega

/-- C1: `h2_is_h2_preface` reports multiplexed mode (true) whenever the
read buffer holds at least 24 bytes whose first 24 bytes equal the magic
token, or between 16 and 23 bytes whose first 16 bytes equal the token's
first 16 bytes; and it reports single-stream mode (false) for every
buffer whose content differs from the token somewhere within the first
16 bytes. -/
theorem h2_is_h2_preface_correct (buf : List Nat) :
    (buf.length ≥ 24 → buf.take 24 = H2_MAGIC_TOKEN →
      h2_is_h2_preface buf = true) ∧
    (16 ≤ buf.length → buf.length ≤ 23 →
      buf.take 16 = H2_MAGIC_TOKEN.take 16 → h2_is_h2_preface buf = true) ∧
    (∀ i, i < 16 → i < buf.length → buf[i]? ≠ H2_MAGIC_TOKEN[i]? →
      h2_is_h2_preface buf = false) := by
  refine ⟨?_, ?_, ?_⟩
  · intro h24 ht
    simp [h2_is_h2_preface, H2_MAGIC_TOKEN_LEN, h24, ht]
  · intro h16 h23 ht
    have hn : ¬ buf.length ≥ 24 := by omega
    simp [h2_is_h2_preface, H2_MAGIC_TOKEN_LEN, H2_MAGIC_TOKEN_LEN_MIN, hn, h16, ht]
  · intro i hi16 hilen hne
    unfold h2_is_h2_preface H2_MAGIC_TOKEN_LEN H2_MAGIC_TOKEN_LEN_MIN
    by_cases h24 : buf.length ≥ 24
    · simp only [h24, if_true, beq_eq_false_iff_ne, ne_eq]
      intro heq
      exact hne (by
        rw [← List.getElem?_take_of_lt (l := buf) (n := 24) (show i < 24 by omega), heq])
    · by_cases h16 : buf.length ≥ 16
      · simp only [h24, if_false, h16, if_true, beq_eq_false_iff_ne, ne_eq]
        intro heq
        exact hne (by
          rw [← List.getElem?_take_of_lt (l := buf) (n := 16) hi16, heq,
            List.getElem?_take_of_lt hi16])
      · simp [h24, h16]

/-- Witness for C1: the full token, its 16-byte prefix, and a buffer
mismatching at index 0 evaluate as the theorem states. -/
theorem h2_is_h2_preface_correct_witness :
    h2_is_h2_preface H2_MAGIC_TOKEN = true ∧
    h2_is_h2_preface (H2_MAGIC_TOKEN.take 16) = true ∧
    h2_is_h2_preface (71 :: H2_MAGIC_TOKEN.tail) = false :=
  ⟨(h2_is_h2_preface_correct H2_MAGIC_TOKEN).1 (by decide) (by decide),
   (h2_is_h2_preface_correct (H2_MAGIC_TOKEN.take 16)).2.1 (by decide) (by decide) (by decide),
   (h2_is_h2_preface_correct (71 :: H2_MAGIC_TOKEN.tail)).2.2 0 (by decide) (by decide)
     (by decide)⟩

/-! ## Connection state machine: data model

The connection record keeps exactly the `MHD_Connection` fields that the
three HTTP/2 phase handlers in `h2_connection.c` touch.  All offsets and
sizes are `size_t`, modelled as `Nat`; `size_t` comparisons
`a - b > 0` / `a - b == 0` / `a - b != 0` are modelled as `a ≠ b` /
`a = b` / `a ≠ b`, which is exactly their unsigned-wraparound meaning. -/

/-- Lifecycle state: `MHD_CONNECTION_CLOSED` versus any other state. -/
inductive ConnState where
  | active
  | closed
  deriving DecidableEq

/-- Request termination reasons used by this file
(`MHD_RequestTerminationCode`). -/
inductive TermReason where
  | completedOk
  | withError
  | clientAbort
  deriving DecidableEq

/-- The scheduler readiness interest `MHD_EVENT_LOOP_INFO_*`. -/
inductive EventLoopInfo where
  | evRead
  | evWrite
  | evBlock
  deriving DecidableEq

/-- The `h2_session_t` fields the handlers use. -/
structure H2 where
  session_id : Nat
  accepted_max : Nat
  current_stream_id : Nat
  deriving DecidableEq

/-- The `MHD_Connection` fields used by the HTTP/2 phase handlers. -/
structure Conn where
  state : ConnState
  suspended : Bool
  read_buffer_size : Nat
  read_buffer_offset : Nat
  read_buffer_start_offset : Nat
  write_buffer_size : Nat
  write_buffer_send_offset : Nat
  write_buffer_append_offset : Nat
  read_closed : Bool
  in_idle : Bool
  event_loop_info : EventLoopInfo
  last_activity : Nat
  term_reason : Option TermReason
  pool_increment : Nat
  h2 : Option H2
  deriving DecidableEq

/-- Modelled from the spec: `MHD_connection_close_` (declared in
`connection.h`, body not under `src/`) closes the connection with the
given termination reason — "connection closed, reason R"; buffer release
happens later, in the teardown (`h2_connection_close`), not here. -/
def MHD_connection_close_ (c : Conn) (r : TermReason) : Conn :=
  { c with state := ConnState.closed, term_reason := some r }

/-- Modelled from the spec: `connection_close_error` (body not under
`src/`) logs the message and closes the connection with the error
termination reason. -/
def connection_close_error (c : Conn) : Conn :=
  MHD_connection_close_ c TermReason.withError

/-- Modelled from the spec: `cleanup_connection` (body not under `src/`)
marks the connection closed and hands it to the daemon's cleanup list;
it does not touch the buffers in-phase. -/
def cleanup_connection (c : Conn) : Conn :=
  { c with state := ConnState.closed }

/-! ## Read phase: `h2_connection_handle_read` (lines 48-111) -/

/-- Result of the socket read primitive `recv_cls`: a byte count, or one
of the negative sentinels `MHD_ERR_AGAIN_`, `MHD_ERR_CONNRESET_`, or any
other negative error. -/
inductive RecvResult where
  | bytes (n : Nat)
  | again
  | connReset
  | otherErr
  deriving DecidableEq

/-- Oracle inputs of one read-phase invocation: the outcome of
`try_grow_read_buffer` (new buffer size on success), the outcome of
`recv_cls`, and the current time for `MHD_update_last_activity_`. -/
structure ReadInput where
  growResult : Option Nat
  recvResult : RecvResult
  now : Nat
  deriving DecidableEq

/-- The buffer-growth step of the read phase (lines 64-68): when less
than one pool increment of free space remains, `try_grow_read_buffer` is
called; on success it enlarges the buffer, on failure (result ignored by
the caller) the buffer stays as it is. -/
def growStep (c : Conn) (i : ReadInput) : Conn :=
  if c.read_buffer_offset + c.pool_increment > c.read_buffer_size then
    match i.growResult with
    | some sz => { c with read_buffer_size := sz }
    | none => c
  else c

/-- Embedding of `h2_connection_handle_read` (lines 48-111), with
`growStep c i` playing the role of the connection after the
possible `try_grow_read_buffer` call. -/
def h2_connection_handle_read (c : Conn) (i : ReadInput) : Conn :=
  if c.state = ConnState.closed ∨ c.suspended then c
  else if (growStep c i).read_buffer_size = (growStep c i).read_buffer_offset
  then growStep c i
  else
    match (growStep c i).h2 with
    | none => growStep c i
    | some _ =>
      match i.recvResult with
      | RecvResult.again => growStep c i
      | RecvResult.connReset => connection_close_error (growStep c i)
      | RecvResult.otherErr => connection_close_error (growStep c i)
      | RecvResult.bytes n =>
        if n = 0 then
          MHD_connection_close_ { growStep c i with read_closed := true }
            TermReason.clientAbort
        else
          { growStep c i with
            read_buffer_offset := (growStep c i).read_buffer_offset + n,
            last_activity := i.now }

/-! ## Write phase: `h2_connection_handle_write` (lines 119-192) -/

/-- Result of the socket write primitive `send_cls`: a byte count, the
would-block sentinel `MHD_ERR_AGAIN_`, or any other negative error. -/
inductive SendResult where
  | sent (n : Nat)
  | again
  | err
  deriving DecidableEq

/-- Oracle inputs of one write-phase invocation: the `send_cls` outcome,
the `h2_fill_write_buffer` outcome (on success, the new append offset
and the new write-buffer size it leaves behind; `none` models a nonzero
error return), the two `nghttp2_session_want_read/want_write` answers,
and the current time. -/
structure WriteInput where
  sendResult : SendResult
  fillResult : Option (Nat × Nat)
  wantRead : Bool
  wantWrite : Bool
  now : Nat
  deriving DecidableEq

/-- Outcome of the flush step of the write phase: either the handler
already returned (`done`), or control continues into the fill step. -/
inductive StepRes where
  | done (c : Conn)
  | cont (c : Conn)
  deriving DecidableEq

/-- The flush step of the write phase (lines 127-155): if unflushed
bytes remain, attempt one send; would-block returns, an error closes,
and a byte count advances `write_buffer_send_offset`, resetting both
offsets when the buffer drains completely. -/
def flushStep (c : Conn) (i : WriteInput) : StepRes :=
  if c.write_buffer_append_offset ≠ c.write_buffer_send_offset then
    match i.sendResult with
    | SendResult.again => StepRes.done c
    | SendResult.err =>
      StepRes.done (MHD_connection_close_ c TermReason.withError)
    | SendResult.sent r =>
      if c.write_buffer_append_offset = c.write_buffer_send_offset + r then
        StepRes.cont { c with write_buffer_append_offset := 0,
                              write_buffer_send_offset := 0 }
      else
        StepRes.cont { c with
          write_buffer_send_offset := c.write_buffer_send_offset + r }
  else StepRes.cont c

/-- Embedding of `h2_connection_handle_write` (lines 119-192): flush,
refill via `h2_fill_write_buffer`, then either close on natural finish
(`MHD_REQUEST_TERMINATED_COMPLETED_OK`) or refresh the activity
timestamp and set the readiness interest — the code sets
`MHD_EVENT_LOOP_INFO_READ` here (line 188). -/
def h2_connection_handle_write (c : Conn) (i : WriteInput) : Conn :=
  match c.h2 with
  | none => c
  | some _ =>
    match flushStep c i with
    | StepRes.done c1 => c1
    | StepRes.cont c1 =>
      match i.fillResult with
      | none => MHD_connection_close_ c1 TermReason.withError
      | some (app, sz) =>
        if i.wantRead = false ∧ i.wantWrite = false ∧
            app = c1.write_buffer_send_offset then
          MHD_connection_close_
            { c1 with write_buffer_append_offset := app,
                      write_buffer_size := sz }
            TermReason.completedOk
        else
          { c1 with write_buffer_append_offset := app,
                    write_buffer_size := sz,
                    last_activity := i.now,
                    event_loop_info := EventLoopInfo.evRead }

/-! ## Idle phase: `h2_connection_handle_idle` (lines 202-273) -/

/-- Result of `nghttp2_session_mem_recv`: the number of bytes consumed,
or a negative decode error (`badMagic` distinguishes
`NGHTTP2_ERR_BAD_CLIENT_MAGIC`, which only suppresses the diagnostic
log; behaviour is otherwise identical). -/
inductive DecodeResult where
  | consumed (n : Nat)
  | decodeErr (badMagic : Bool)
  deriving DecidableEq

/-- Oracle inputs of one idle-phase invocation. -/
structure IdleInput where
  decodeResult : DecodeResult
  now : Nat
  deriving DecidableEq

/-- Calls made on the nghttp2 session by the idle phase's error path,
recorded as a trace. -/
inductive SessionEvent where
  | submitGoaway (lastStreamId : Nat)
  | sessionSend
  deriving DecidableEq

/-- The buffer-compaction step of the idle phase (lines 240-244): once
the advanced start offset reaches the filled offset, both reset to
zero. -/
def idleCompact (c : Conn) : Conn :=
  if c.read_buffer_offset = c.read_buffer_start_offset then
    { c with read_buffer_offset := 0, read_buffer_start_offset := 0 }
  else c

/-- The second readiness-interest assignment of the idle phase
(lines 252-258): when unflushed output remains, the interest is set to
write (it already is — the assignment repeats the value of line 246). -/
def idleSetInterest (c : Conn) : Conn :=
  if c.write_buffer_append_offset ≠ c.write_buffer_send_offset then
    { c with event_loop_info := EventLoopInfo.evWrite }
  else c

/-- Embedding of `h2_connection_handle_idle` (lines 202-273): feed the
unconsumed bytes to the decoder once; on decode error submit one GOAWAY
naming `h2->accepted_max`, flush it with one `nghttp2_session_send`,
close with the error reason and return `MHD_NO`; otherwise advance
`read_buffer_start_offset`, compact when fully drained, set the
readiness interest to write and return `MHD_YES`.  The returned list is
the trace of session calls on the error path. -/
def h2_connection_handle_idle (c : Conn) (i : IdleInput) :
    Conn × Bool × List SessionEvent :=
  match c.h2 with
  | none => ({ cleanup_connection c with in_idle := false }, false, [])
  | some h2s =>
    if c.state = ConnState.closed then
      ({ cleanup_connection c with in_idle := false }, false, [])
    else
      match i.decodeResult with
      | DecodeResult.decodeErr _ =>
        (MHD_connection_close_ { c with in_idle := true }
           TermReason.withError, false,
          [SessionEvent.submitGoaway h2s.accepted_max,
           SessionEvent.sessionSend])
      | DecodeResult.consumed rv =>
        (idleSetInterest
          { (idleCompact
              { c with
                in_idle := true,
                last_activity := i.now,
                read_buffer_start_offset :=
                  c.read_buffer_start_offset + rv }) with
            event_loop_info := EventLoopInfo.evWrite },
         true, [])

/-! ## Phase sequences and the buffer invariant -/

/-- One phase invocation together with its oracle inputs. -/
inductive PhaseInput where
  | readPhase (i : ReadInput)
  | idlePhase (i : IdleInput)
  | writePhase (i : WriteInput)
  deriving DecidableEq

/-- One step of the connection state machine. -/
def stepConn (c : Conn) : PhaseInput → Conn
  | PhaseInput.readPhase i => h2_connection_handle_read c i
  | PhaseInput.idlePhase i => (h2_connection_handle_idle c i).1
  | PhaseInput.writePhase i => h2_connection_handle_write c i

/-- Run a sequence of phase invocations. -/
def runConn (c : Conn) (ps : List PhaseInput) : Conn :=
  ps.foldl stepConn c

/-- The buffer invariant of the data model:
`0 ≤ start ≤ filled ≤ read capacity` and
`0 ≤ send ≤ append ≤ write capacity` (the `0 ≤` parts are inherent in
`Nat`). -/
def BufInv (c : Conn) : Prop :=
  c.read_buffer_start_offset ≤ c.read_buffer_offset ∧
  c.read_buffer_offset ≤ c.read_buffer_size ∧
  c.write_buffer_send_offset ≤ c.write_buffer_append_offset ∧
  c.write_buffer_append_offset ≤ c.write_buffer_size

instance (c : Conn) : Decidable (BufInv c) := by
  unfold BufInv; infer_instance

/-- Well-formedness of the read-phase collaborators: growth never
shrinks the buffer, and `recv_cls` returns at most the number of bytes
it was asked for (`read_buffer_size - read_buffer_offset` after the
growth step). -/
def WFread (c : Conn) (i : ReadInput) : Bool :=
  (match i.growResult with
   | some sz => decide (c.read_buffer_size ≤ sz)
   | none => true) &&
  (match i.recvResult with
   | RecvResult.bytes n =>
     decide (n ≤ (growStep c i).read_buffer_size -
       (growStep c i).read_buffer_offset)
   | _ => true)

/-- Well-formedness of the idle-phase collaborator: the decoder consumes
at most the number of bytes it was fed. -/
def WFidle (c : Conn) (i : IdleInput) : Bool :=
  match i.decodeResult with
  | DecodeResult.consumed n =>
    decide (n ≤ c.read_buffer_offset - c.read_buffer_start_offset)
  | _ => true

/-- Well-formedness of the write-phase collaborators: `send_cls` writes
at most the span it was given, and `h2_fill_write_buffer` only appends —
it never moves the append offset backwards and leaves it within the
(possibly grown) buffer. -/
def WFwrite (c : Conn) (i : WriteInput) : Bool :=
  (match i.sendResult with
   | SendResult.sent r =>
     decide (r ≤ c.write_buffer_append_offset - c.write_buffer_send_offset)
   | _ => true) &&
  (match flushStep c i with
   | StepRes.done _ => true
   | StepRes.cont c1 =>
     match i.fillResult with
     | some (app, sz) =>
       decide (c1.write_buffer_append_offset ≤ app ∧ app ≤ sz)
     | none => true)

/-- Well-formedness of the collaborators of one phase invocation. -/
def WFstep (c : Conn) : PhaseInput → Bool
  | PhaseInput.readPhase i => WFread c i
  | PhaseInput.idlePhase i => WFidle c i
  | PhaseInput.writePhase i => WFwrite c i

/-- Well-formedness of the collaborators along a whole phase sequence. -/
def WFtrace : Conn → List PhaseInput → Bool
  | _, [] => true
  | c, p :: ps => WFstep c p && WFtrace (stepConn c p) ps


/-- Closing a connection only touches `state` and `term_reason`, so it
preserves the buffer invariant. -/
theorem bufInv_close (c : Conn) (r : TermReason) :
    BufInv (MHD_connection_close_ c r) ↔ BufInv c := by
  simp [BufInv, MHD_connection_close_]

/-- The growth step never changes any field except the read buffer
capacity. -/
theorem growStep_fields (c : Conn) (i : ReadInput) :
    (growStep c i).read_buffer_offset = c.read_buffer_offset ∧
    (growStep c i).read_buffer_start_offset = c.read_buffer_start_offset ∧
    (growStep c i).write_buffer_send_offset = c.write_buffer_send_offset ∧
    (growStep c i).write_buffer_append_offset = c.write_buffer_append_offset ∧
    (growStep c i).write_buffer_size = c.write_buffer_size ∧
    (growStep c i).h2 = c.h2 ∧
    (growStep c i).state = c.state ∧
    (growStep c i).read_closed = c.read_closed ∧
    (growStep c i).last_activity = c.last_activity ∧
    (growStep c i).term_reason = c.term_reason := by
  unfold growStep
  split
  · cases i.growResult <;> simp
  · simp

/-- Under a well-formed allocator the growth step never shrinks the read
buffer. -/
theorem growStep_size (c : Conn) (i : ReadInput)
    (hg : (match i.growResult with
           | some sz => decide (c.read_buffer_size ≤ sz)
           | none => true) = true) :
    c.read_buffer_size ≤ (growStep c i).read_buffer_size := by
  unfold growStep
  split
  · cases hgr : i.growResult with
    | none => simp
    | some sz => rw [hgr] at hg; simp_all
  · simp

/-- The read phase preserves the buffer invariant. -/
theorem read_preserves_inv (c : Conn) (i : ReadInput)
    (h : BufInv c) (hwf : WFread c i = true) :
    BufInv (h2_connection_handle_read c i) := by
  obtain ⟨h1, h2, h3, h4⟩ := h
  unfold WFread at hwf
  simp only [Bool.and_eq_true] at hwf
  obtain ⟨hg, hr⟩ := hwf
  obtain ⟨f1, f2, f3, f4, f5, -⟩ := growStep_fields c i
  have hsz := growStep_size c i hg
  unfold h2_connection_handle_read
  split
  · exact ⟨h1, h2, h3, h4⟩
  · split
    · exact ⟨by omega, by omega, by omega, by omega⟩
    · split
      · exact ⟨by omega, by omega, by omega, by omega⟩
      · split
        · exact ⟨by omega, by omega, by omega, by omega⟩
        · rw [show connection_close_error (growStep c i) =
            MHD_connection_close_ (growStep c i) TermReason.withError from rfl,
            bufInv_close]
          exact ⟨by omega, by omega, by omega, by omega⟩
        · rw [show connection_close_error (growStep c i) =
            MHD_connection_close_ (growStep c i) TermReason.withError from rfl,
            bufInv_close]
          exact ⟨by omega, by omega, by omega, by omega⟩
        · rename_i n hrec
          rw [hrec] at hr
          simp only [decide_eq_true_eq] at hr
          split
          · rw [bufInv_close]
            exact ⟨by simp <;> omega, by simp <;> omega,
              by simp <;> omega, by simp <;> omega⟩
          · exact ⟨by simp <;> omega, by simp <;> omega,
              by simp <;> omega, by simp <;> omega⟩

/-- The idle phase preserves the buffer invariant. -/
theorem idle_preserves_inv (c : Conn) (i : IdleInput)
    (h : BufInv c) (hwf : WFidle c i = true) :
    BufInv (h2_connection_handle_idle c i).1 := by
  obtain ⟨h1, h2, h3, h4⟩ := h
  unfold WFidle at hwf
  unfold h2_connection_handle_idle
  split
  · exact ⟨h1, h2, h3, h4⟩
  · split
    · exact ⟨h1, h2, h3, h4⟩
    · split
      · exact ⟨h1, h2, h3, h4⟩
      · rename_i rv hd
        rw [hd] at hwf
        simp only [decide_eq_true_eq] at hwf
        unfold idleSetInterest idleCompact
        split <;> split <;>
          exact ⟨by simp <;> omega, by simp <;> omega, by simp <;> omega,
            by simp <;> omega⟩

/-- A flush step that returns early leaves the invariant intact. -/
theorem flushStep_done_inv (c : Conn) (i : WriteInput) (c1 : Conn)
    (h : BufInv c)
    (hs : (match i.sendResult with
           | SendResult.sent r =>
             decide (r ≤ c.write_buffer_append_offset -
               c.write_buffer_send_offset)
           | _ => true) = true)
    (hf : flushStep c i = StepRes.done c1) : BufInv c1 := by
  obtain ⟨h1, h2, h3, h4⟩ := h
  unfold flushStep at hf
  split at hf
  · split at hf
    · cases hf
      exact ⟨h1, h2, h3, h4⟩
    · cases hf
      exact ⟨h1, h2, h3, h4⟩
    · split at hf <;> cases hf
  · cases hf

/-- A flush step that continues preserves the invariant into the fill
step. -/
theorem flushStep_cont_inv (c : Conn) (i : WriteInput) (c1 : Conn)
    (h : BufInv c)
    (hs : (match i.sendResult with
           | SendResult.sent r =>
             decide (r ≤ c.write_buffer_append_offset -
               c.write_buffer_send_offset)
           | _ => true) = true)
    (hf : flushStep c i = StepRes.cont c1) : BufInv c1 := by
  obtain ⟨h1, h2, h3, h4⟩ := h
  unfold flushStep at hf
  split at hf
  · rename_i hne
    split at hf <;> rename_i hsr <;> rw [hsr] at hs <;>
      simp only [decide_eq_true_eq] at hs
    · cases hf
    · cases hf
    · split at hf <;> cases hf <;>
        exact ⟨by simp <;> omega, by simp <;> omega, by simp <;> omega,
          by simp <;> omega⟩
  · cases hf
    exact ⟨h1, h2, h3, h4⟩

/-- The write phase preserves the buffer invariant. -/
theorem write_preserves_inv (c : Conn) (i : WriteInput)
    (h : BufInv c) (hwf : WFwrite c i = true) :
    BufInv (h2_connection_handle_write c i) := by
  unfold WFwrite at hwf
  simp only [Bool.and_eq_true] at hwf
  obtain ⟨hs, hfill⟩ := hwf
  unfold h2_connection_handle_write
  split
  · exact h
  · cases hf : flushStep c i with
    | done c1 =>
      simp only [hf]
      exact flushStep_done_inv c i c1 h hs hf
    | cont c1 =>
      have hc1 := flushStep_cont_inv c i c1 h hs hf
      obtain ⟨g1, g2, g3, g4⟩ := hc1
      simp only [hf] at hfill ⊢
      cases hfr : i.fillResult with
      | none =>
        simp only [hfr]
        rw [bufInv_close]
        exact ⟨g1, g2, g3, g4⟩
      | some p =>
        obtain ⟨app, sz⟩ := p
        rw [hfr] at hfill
        simp only [decide_eq_true_eq] at hfill
        simp only [hfr]
        split
        · rw [bufInv_close]
          exact ⟨by simp <;> omega, by simp <;> omega, by simp <;> omega,
            by simp <;> omega⟩
        · exact ⟨by simp <;> omega, by simp <;> omega, by simp <;> omega,
            by simp <;> omega⟩

/-- C2: starting from a connection satisfying the buffer invariant,
after every prefix of any sequence of read, idle and write phase
invocations (with well-formed collaborators) the offsets still satisfy
`0 ≤ start ≤ filled ≤ read capacity` and
`0 ≤ send ≤ append ≤ write capacity`. -/
theorem buffer_invariant_all_phases (c : Conn) (ps : List PhaseInput)
    (hInv : BufInv c) (hwf : WFtrace c ps = true) :
    ∀ n, BufInv (runConn c (ps.take n)) := by
  induction ps generalizing c with
  | nil =>
    intro n
    simpa [runConn] using hInv
  | cons p ps ih =>
    intro n
    unfold WFtrace at hwf
    simp only [Bool.and_eq_true] at hwf
    obtain ⟨hw1, hw2⟩ := hwf
    cases n with
    | zero => simpa [runConn] using hInv
    | succ n =>
      have hstep : BufInv (stepConn c p) := by
        cases p with
        | readPhase i => exact read_preserves_inv c i hInv hw1
        | idlePhase i => exact idle_preserves_inv c i hInv hw1
        | writePhase i => exact write_preserves_inv c i hInv hw1
      simpa [runConn] using ih (stepConn c p) hstep hw2 n

/-- A concrete connection used by witnesses: active, 8-byte read buffer
with 3 filled bytes (1 consumed), 8-byte write buffer with 2 pending
bytes, a live session. -/
def connW : Conn :=
  { state := ConnState.active, suspended := false,
    read_buffer_size := 8, read_buffer_offset := 3,
    read_buffer_start_offset := 1,
    write_buffer_size := 8, write_buffer_send_offset := 1,
    write_buffer_append_offset := 3,
    read_closed := false, in_idle := false,
    event_loop_info := EventLoopInfo.evRead, last_activity := 0,
    term_reason := none, pool_increment := 4,
    h2 := some { session_id := 1, accepted_max := 0,
                 current_stream_id := 1 } }

/-- A concrete well-formed phase sequence used by the C2 witness:
one read (grown to 16 bytes, 5 bytes received), one idle (2 bytes
decoded), one write (2 bytes flushed, 4 bytes refilled). -/
def phasesW : List PhaseInput :=
  [PhaseInput.readPhase
     { growResult := some 16, recvResult := RecvResult.bytes 5, now := 1 },
   PhaseInput.idlePhase
     { decodeResult := DecodeResult.consumed 2, now := 2 },
   PhaseInput.writePhase
     { sendResult := SendResult.sent 2, fillResult := some (4, 8),
       wantRead := true, wantWrite := false, now := 3 }]

/-- Witness for C2: the concrete connection and phase sequence satisfy
the hypotheses, and the invariant holds after the full sequence. -/
theorem buffer_invariant_all_phases_witness :
    BufInv (runConn connW (phasesW.take 3)) :=
  buffer_invariant_all_phases connW phasesW (by decide) (by decide) 3

/-- C8: would-block transparency.  When `recv_cls` returns the
would-block sentinel, the read phase leaves all four buffer offsets and
the lifecycle state unchanged; when `send_cls` is invoked (unflushed
bytes pending) and returns the would-block sentinel, the write phase
returns with the connection exactly as it was. -/
theorem would_block_transparent (c : Conn) (ir : ReadInput)
    (iw : WriteInput)
    (hr : ir.recvResult = RecvResult.again)
    (hw : iw.sendResult = SendResult.again)
    (hp : c.write_buffer_append_offset ≠ c.write_buffer_send_offset) :
    ((h2_connection_handle_read c ir).read_buffer_start_offset =
        c.read_buffer_start_offset ∧
     (h2_connection_handle_read c ir).read_buffer_offset =
        c.read_buffer_offset ∧
     (h2_connection_handle_read c ir).write_buffer_send_offset =
        c.write_buffer_send_offset ∧
     (h2_connection_handle_read c ir).write_buffer_append_offset =
        c.write_buffer_append_offset ∧
     (h2_connection_handle_read c ir).state = c.state) ∧
    h2_connection_handle_write c iw = c := by
  obtain ⟨f1, f2, f3, f4, _, _, f7, _, _, _⟩ := growStep_fields c ir
  constructor
  · unfold h2_connection_handle_read
    split
    · exact ⟨rfl, rfl, rfl, rfl, rfl⟩
    · split
      · exact ⟨f2, f1, f3, f4, f7⟩
      · split
        · exact ⟨f2, f1, f3, f4, f7⟩
        · rw [hr]
          exact ⟨f2, f1, f3, f4, f7⟩
  · unfold h2_connection_handle_write
    split
    · rfl
    · have hflush : flushStep c iw = StepRes.done c := by
        unfold flushStep
        rw [if_pos hp, hw]
      rw [hflush]

/-- Witness for C8: concrete would-block inputs on the witness
connection leave its offsets and state untouched. -/
theorem would_block_transparent_witness :
    ((h2_connection_handle_read connW
        { growResult := none, recvResult := RecvResult.again, now := 9 }
       ).read_buffer_start_offset = connW.read_buffer_start_offset ∧
     (h2_connection_handle_read connW
        { growResult := none, recvResult := RecvResult.again, now := 9 }
       ).read_buffer_offset = connW.read_buffer_offset ∧
     (h2_connection_handle_read connW
        { growResult := none, recvResult := RecvResult.again, now := 9 }
       ).write_buffer_send_offset = connW.write_buffer_send_offset ∧
     (h2_connection_handle_read connW
        { growResult := none, recvResult := RecvResult.again, now := 9 }
       ).write_buffer_append_offset = connW.write_buffer_append_offset ∧
     (h2_connection_handle_read connW
        { growResult := none, recvResult := RecvResult.again, now := 9 }
       ).state = connW.state) ∧
    h2_connection_handle_write connW
      { sendResult := SendResult.again, fillResult := some (3, 8),
        wantRead := false, wantWrite := false, now := 9 } = connW :=
  would_block_transparent connW
    { growResult := none, recvResult := RecvResult.again, now := 9 }
    { sendResult := SendResult.again, fillResult := some (3, 8),
      wantRead := false, wantWrite := false, now := 9 }
    rfl rfl (by decide)

/-- A concrete post-flush state with pending output used to exhibit the
readiness-interest defect of the write phase. -/
def connPending : Conn :=
  { state := ConnState.active, suspended := false,
    read_buffer_size := 16, read_buffer_offset := 0,
    read_buffer_start_offset := 0,
    write_buffer_size := 10, write_buffer_send_offset := 0,
    write_buffer_append_offset := 5,
    read_closed := false, in_idle := false,
    event_loop_info := EventLoopInfo.evWrite, last_activity := 0,
    term_reason := none, pool_increment := 4,
    h2 := some { session_id := 1, accepted_max := 0,
                 current_stream_id := 1 } }

/-- Write input for the defect: a partial send of 2 of the 5 pending
bytes, a successful refill to 6 appended bytes, and a session that still
wants input. -/
def inputPending : WriteInput :=
  { sendResult := SendResult.sent 2, fillResult := some (6, 10),
    wantRead := true, wantWrite := false, now := 7 }

/-- C3: after a write phase that does not close the connection and
leaves unflushed bytes (`append - send = 4 > 0`), the code reports
readiness interest `MHD_EVENT_LOOP_INFO_READ` — not "want write" as the
specification states (the write-event registration is an unimplemented
TODO at lines 140-141 and 169-170; line 188 unconditionally assigns the
read interest). -/
theorem write_pending_sets_read_interest :
    (h2_connection_handle_write connPending inputPending).state ≠
      ConnState.closed ∧
    (h2_connection_handle_write connPending inputPending
      ).write_buffer_append_offset ≠
      (h2_connection_handle_write connPending inputPending
        ).write_buffer_send_offset ∧
    (h2_connection_handle_write connPending inputPending).event_loop_info =
      EventLoopInfo.evRead := by decide

/-- A connection that needs its read buffer grown: 3 of 4 bytes filled,
pool increment 4, so free space is below one increment. -/
def connNeedsGrow : Conn :=
  { state := ConnState.active, suspended := false,
    read_buffer_size := 4, read_buffer_offset := 3,
    read_buffer_start_offset := 0,
    write_buffer_size := 8, write_buffer_send_offset := 0,
    write_buffer_append_offset := 0,
    read_closed := false, in_idle := false,
    event_loop_info := EventLoopInfo.evRead, last_activity := 0,
    term_reason := none, pool_increment := 4,
    h2 := some { session_id := 1, accepted_max := 0,
                 current_stream_id := 1 } }

/-- Counterexample to C4: on `connNeedsGrow` the growth precondition
holds and the growth attempt fails (`growResult = none`), yet the read
phase does not close the connection — it simply reads one byte into the
remaining space.  The claim that a failed growth closes the connection
with a generic error is false on this input. -/
theorem read_grow_failure_counterexample :
    connNeedsGrow.read_buffer_offset + connNeedsGrow.pool_increment >
      connNeedsGrow.read_buffer_size ∧
    (h2_connection_handle_read connNeedsGrow
        { growResult := none, recvResult := RecvResult.bytes 1, now := 1 }
      ).state ≠ ConnState.closed ∧
    (h2_connection_handle_read connNeedsGrow
        { growResult := none, recvResult := RecvResult.bytes 1, now := 1 }
      ).term_reason = none := by decide

/-- C4 amended: a failed growth attempt leaves the read buffer capacity
unchanged and never by itself closes the connection; when the buffer is
completely full, the read phase returns with the connection completely
unchanged (backpressure), in particular not closed. -/
theorem read_grow_failure_no_close (c : Conn) (i : ReadInput)
    (hg : i.growResult = none) :
    (h2_connection_handle_read c i).read_buffer_size =
      c.read_buffer_size ∧
    (c.read_buffer_size = c.read_buffer_offset →
      h2_connection_handle_read c i = c) := by
  have hgs : growStep c i = c := by
    unfold growStep
    rw [hg]
    split <;> rfl
  constructor
  · unfold h2_connection_handle_read
    rw [hgs]
    split
    · rfl
    · split
      · rfl
      · split
        · rfl
        · split
          · rfl
          · simp [connection_close_error, MHD_connection_close_]
          · simp [connection_close_error, MHD_connection_close_]
          · split <;> simp [MHD_connection_close_]
  · intro hfull
    unfold h2_connection_handle_read
    rw [hgs, if_pos hfull]
    split <;> rfl

/-- Witness for C4 amended: on a completely full buffer with failed
growth the phase is the identity. -/
theorem read_grow_failure_no_close_witness :
    (h2_connection_handle_read
        { connNeedsGrow with read_buffer_offset := 4 }
        { growResult := none, recvResult := RecvResult.bytes 1, now := 1 }
      ).read_buffer_size =
      ({ connNeedsGrow with read_buffer_offset := 4 } : Conn
        ).read_buffer_size ∧
    h2_connection_handle_read
        { connNeedsGrow with read_buffer_offset := 4 }
        { growResult := none, recvResult := RecvResult.bytes 1, now := 1 } =
      { connNeedsGrow with read_buffer_offset := 4 } :=
  ⟨(read_grow_failure_no_close _ _ rfl).1,
   (read_grow_failure_no_close _ _ rfl).2 (by decide)⟩

/-- A flush step that continues never changes the lifecycle state or
the termination reason. -/
theorem flushStep_cont_same (c : Conn) (i : WriteInput) (c1 : Conn)
    (hf : flushStep c i = StepRes.cont c1) :
    c1.state = c.state ∧ c1.term_reason = c.term_reason := by
  unfold flushStep at hf
  split at hf
  · split at hf
    · cases hf
    · cases hf
    · split at hf <;> cases hf <;> exact ⟨rfl, rfl⟩
  · cases hf
    exact ⟨rfl, rfl⟩

/-- C7: in the write phase, when the flush step continues (no
would-block, no send error) and the refill succeeds leaving the append
offset at `app`, the connection is closed with the
"completed successfully" reason exactly when the session wants neither
more input nor more output and the write buffer is fully flushed
(`app = send`); when any of the three conditions fails, this step does
not close the connection and leaves its termination reason untouched. -/
theorem write_finish_close_iff (c : Conn) (i : WriteInput) (s : H2)
    (c1 : Conn) (app sz : Nat)
    (hh : c.h2 = some s)
    (hf : flushStep c i = StepRes.cont c1)
    (hfill : i.fillResult = some (app, sz)) :
    ((i.wantRead = false ∧ i.wantWrite = false ∧
        app = c1.write_buffer_send_offset) →
      (h2_connection_handle_write c i).state = ConnState.closed ∧
      (h2_connection_handle_write c i).term_reason =
        some TermReason.completedOk) ∧
    (¬ (i.wantRead = false ∧ i.wantWrite = false ∧
        app = c1.write_buffer_send_offset) →
      (h2_connection_handle_write c i).state = c.state ∧
      (h2_connection_handle_write c i).term_reason = c.term_reason) := by
  obtain ⟨hst, htr⟩ := flushStep_cont_same c i c1 hf
  unfold h2_connection_handle_write
  rw [hh, hf, hfill]
  dsimp only
  constructor
  · intro hcond
    rw [if_pos hcond]
    exact ⟨rfl, rfl⟩
  · intro hcond
    rw [if_neg hcond]
    exact ⟨hst, htr⟩

/-- Witness for C7: on a drained witness connection with a session that
is finished, the write phase closes with the success reason. -/
theorem write_finish_close_iff_witness :
    (h2_connection_handle_write
        { connW with write_buffer_send_offset := 0,
                     write_buffer_append_offset := 0 }
        { sendResult := SendResult.again, fillResult := some (0, 8),
          wantRead := false, wantWrite := false, now := 4 }).state =
      ConnState.closed ∧
    (h2_connection_handle_write
        { connW with write_buffer_send_offset := 0,
                     write_buffer_append_offset := 0 }
        { sendResult := SendResult.again, fillResult := some (0, 8),
          wantRead := false, wantWrite := false, now := 4 }).term_reason =
      some TermReason.completedOk :=
  (write_finish_close_iff
      { connW with write_buffer_send_offset := 0,
                   write_buffer_append_offset := 0 }
      { sendResult := SendResult.again, fillResult := some (0, 8),
        wantRead := false, wantWrite := false, now := 4 }
      { session_id := 1, accepted_max := 0, current_stream_id := 1 }
      { connW with write_buffer_send_offset := 0,
                   write_buffer_append_offset := 0 }
      0 8 (by decide) (by decide) rfl).1 ⟨rfl, rfl, by decide⟩

/-- C6: when the decoder reports an error in the idle phase of a live
connection, exactly one GOAWAY naming `h2->accepted_max` is prepared,
exactly one synchronous flush follows it, the connection is closed with
the error termination reason, and the phase returns `MHD_NO` (it does
not hang). -/
theorem idle_decode_error_goaway (c : Conn) (i : IdleInput) (s : H2)
    (b : Bool)
    (hh : c.h2 = some s)
    (hs : ¬ c.state = ConnState.closed)
    (hd : i.decodeResult = DecodeResult.decodeErr b) :
    (h2_connection_handle_idle c i).2.2 =
      [SessionEvent.submitGoaway s.accepted_max,
       SessionEvent.sessionSend] ∧
    (h2_connection_handle_idle c i).1.state = ConnState.closed ∧
    (h2_connection_handle_idle c i).1.term_reason =
      some TermReason.withError ∧
    (h2_connection_handle_idle c i).2.1 = false := by
  unfold h2_connection_handle_idle
  rw [hh]
  simp only [hd]
  rw [if_neg hs]
  exact ⟨rfl, rfl, rfl, rfl⟩

/-- Witness for C6: a malformed frame on the witness connection yields
the GOAWAY-then-flush trace and an error close. -/
theorem idle_decode_error_goaway_witness :
    (h2_connection_handle_idle connW
        { decodeResult := DecodeResult.decodeErr false, now := 2 }).2.2 =
      [SessionEvent.submitGoaway 0, SessionEvent.sessionSend] ∧
    (h2_connection_handle_idle connW
        { decodeResult := DecodeResult.decodeErr false, now := 2 }
      ).1.state = ConnState.closed ∧
    (h2_connection_handle_idle connW
        { decodeResult := DecodeResult.decodeErr false, now := 2 }
      ).1.term_reason = some TermReason.withError ∧
    (h2_connection_handle_idle connW
        { decodeResult := DecodeResult.decodeErr false, now := 2 }
      ).2.1 = false :=
  idle_decode_error_goaway connW
    { decodeResult := DecodeResult.decodeErr false, now := 2 }
    { session_id := 1, accepted_max := 0, current_stream_id := 1 }
    false rfl (by decide) rfl

/-- Setting the readiness interest is the identity when the interest is
already "write". -/
theorem idleSetInterest_evWrite (x : Conn)
    (hx : x.event_loop_info = EventLoopInfo.evWrite) :
    idleSetInterest x = x := by
  unfold idleSetInterest
  split
  · cases x
    simp_all
  · rfl

/-- Closed form of the idle phase on a live session connection with
zero available bytes whose decoder consumes zero bytes: the offsets
compact to zero, the interest becomes "write", the activity timestamp
refreshes, `in_idle` is set, and the phase reports success with no
session calls. -/
theorem idle_consumed_zero_form (c : Conn) (i : IdleInput) (s : H2)
    (hh : c.h2 = some s)
    (hs : ¬ c.state = ConnState.closed)
    (hz : c.read_buffer_start_offset = c.read_buffer_offset)
    (hd : i.decodeResult = DecodeResult.consumed 0) :
    h2_connection_handle_idle c i =
      ({ c with
         in_idle := true,
         last_activity := i.now,
         read_buffer_start_offset := 0,
         read_buffer_offset := 0,
         event_loop_info := EventLoopInfo.evWrite }, true, []) := by
  unfold h2_connection_handle_idle
  rw [hh]
  simp only [hd]
  rw [if_neg hs]
  rw [idleSetInterest_evWrite _ rfl]
  unfold idleCompact
  rw [if_pos (by simp; omega)]

/-- A concrete live connection whose read offsets are equal and nonzero,
with stale interest and `in_idle` unset. -/
def connDrained : Conn :=
  { state := ConnState.active, suspended := false,
    read_buffer_size := 8, read_buffer_offset := 5,
    read_buffer_start_offset := 5,
    write_buffer_size := 8, write_buffer_send_offset := 0,
    write_buffer_append_offset := 0,
    read_closed := false, in_idle := false,
    event_loop_info := EventLoopInfo.evRead, last_activity := 0,
    term_reason := none, pool_increment := 4,
    h2 := some { session_id := 1, accepted_max := 0,
                 current_stream_id := 1 } }

/-- Counterexample to C9: on `connDrained` (non-closed, zero available
bytes, decoder consuming zero) the idle phase is not a no-op — it
resets the equal offsets 5/5 to zero, switches the readiness interest
to write, refreshes the activity timestamp and sets `in_idle`; the
resulting connection differs from the original. -/
theorem idle_zero_bytes_not_noop :
    connDrained.read_buffer_start_offset = connDrained.read_buffer_offset ∧
    connDrained.state ≠ ConnState.closed ∧
    (h2_connection_handle_idle connDrained
        { decodeResult := DecodeResult.consumed 0, now := 3 }).1 ≠
      connDrained := by decide

/-- C9 amended: invoking the idle phase on a non-closed connection with
a live session and zero available bytes, when the decoder consumes zero
bytes, reports success (`MHD_YES`), performs no session calls, never
closes the connection, compacts both read offsets to zero and sets the
readiness interest to write; it is idempotent — repeating the
invocation with the same inputs returns the same state — but it is not
a strict no-op (compaction, interest, timestamp and the `in_idle` flag
change). -/
theorem idle_zero_bytes_idempotent (c : Conn) (i : IdleInput) (s : H2)
    (hh : c.h2 = some s)
    (hs : ¬ c.state = ConnState.closed)
    (hz : c.read_buffer_start_offset = c.read_buffer_offset)
    (hd : i.decodeResult = DecodeResult.consumed 0) :
    (h2_connection_handle_idle c i).2.1 = true ∧
    (h2_connection_handle_idle c i).2.2 = [] ∧
    (h2_connection_handle_idle c i).1.state = c.state ∧
    (h2_connection_handle_idle c i).1.read_buffer_start_offset = 0 ∧
    (h2_connection_handle_idle c i).1.read_buffer_offset = 0 ∧
    (h2_connection_handle_idle c i).1.event_loop_info =
      EventLoopInfo.evWrite ∧
    h2_connection_handle_idle (h2_connection_handle_idle c i).1 i =
      h2_connection_handle_idle c i := by
  have h1 := idle_consumed_zero_form c i s hh hs hz hd
  rw [h1]
  refine ⟨rfl, rfl, rfl, rfl, rfl, rfl, ?_⟩
  exact idle_consumed_zero_form _ i s hh hs rfl hd

/-- Witness for C9 amended: the concrete drained connection evaluates
as the amended claim states. -/
theorem idle_zero_bytes_idempotent_witness :
    (h2_connection_handle_idle connDrained
        { decodeResult := DecodeResult.consumed 0, now := 3 }).2.1 =
      true ∧
    (h2_connection_handle_idle connDrained
        { decodeResult := DecodeResult.consumed 0, now := 3 }).2.2 = [] ∧
    (h2_connection_handle_idle connDrained
        { decodeResult := DecodeResult.consumed 0, now := 3 }).1.state =
      connDrained.state ∧
    (h2_connection_handle_idle connDrained
        { decodeResult := DecodeResult.consumed 0, now := 3 }
      ).1.read_buffer_start_offset = 0 ∧
    (h2_connection_handle_idle connDrained
        { decodeResult := DecodeResult.consumed 0, now := 3 }
      ).1.read_buffer_offset = 0 ∧
    (h2_connection_handle_idle connDrained
        { decodeResult := DecodeResult.consumed 0, now := 3 }
      ).1.event_loop_info = EventLoopInfo.evWrite ∧
    h2_connection_handle_idle
      (h2_connection_handle_idle connDrained
          { decodeResult := DecodeResult.consumed 0, now := 3 }).1
      { decodeResult := DecodeResult.consumed 0, now := 3 } =
      h2_connection_handle_idle connDrained
        { decodeResult := DecodeResult.consumed 0, now := 3 } :=
  idle_zero_bytes_idempotent connDrained
    { decodeResult := DecodeResult.consumed 0, now := 3 }
    { session_id := 1, accepted_max := 0, current_stream_id := 1 }
    rfl (by decide) rfl rfl

/-! ## Response queueing: `h2_queue_response` (lines 302-347) -/

/-- The constant `MHD_HTTP_OK`. -/
def MHD_HTTP_OK : Nat := 200

/-- The constant `MHD_HTTP_NO_CONTENT`. -/
def MHD_HTTP_NO_CONTENT : Nat := 204

/-- The constant `MHD_HTTP_NOT_MODIFIED`. -/
def MHD_HTTP_NOT_MODIFIED : Nat := 304

/-- Byte list of `MHD_HTTP_METHOD_HEAD` = "HEAD". -/
def MHD_HTTP_METHOD_HEAD : List Nat := [72, 69, 65, 68]

/-- Fold an US-ASCII byte to lower case. -/
def asciiToLower (ch : Nat) : Nat :=
  if 65 ≤ ch ∧ ch ≤ 90 then ch + 32 else ch

/-- Modelled from the spec: `MHD_str_equal_caseless_` (body in
`mhd_str.c`, not under `src/`; its header documents it as equality of
two strings ignoring the case of US-ASCII letters). -/
def MHD_str_equal_caseless_ (a b : List Nat) : Bool :=
  a.map asciiToLower == b.map asciiToLower

/-- The `MHD_Response` fields used by `h2_queue_response`. -/
structure MHD_Response where
  total_size : Nat
  reference_count : Nat
  deriving DecidableEq

/-- The `h2_stream_t` fields used by `h2_queue_response`: the borrowed
request method (NULL allowed), the bound response, the stored status
code and the body write position. -/
structure H2Stream where
  method : Option (List Nat)
  response : Option MHD_Response
  response_code : Nat
  response_write_position : Nat
  deriving DecidableEq

/-- Oracle inputs of `h2_queue_response`: the stream record found by
`nghttp2_session_get_stream_user_data` for `h2->current_stream_id`
(`none` models no such stream), and whether
`h2_session_build_stream_headers` returned 0. -/
structure QueueInput where
  stream : Option H2Stream
  buildOk : Bool
  deriving DecidableEq

/-- The special-case policy of lines 323-328: request method is HEAD
(case-insensitively), or the status code is informational (below
`MHD_HTTP_OK`), or it is `MHD_HTTP_NO_CONTENT` or
`MHD_HTTP_NOT_MODIFIED`. -/
def noBodyCase (st : H2Stream) (status_code : Nat) : Bool :=
  (match st.method with
   | some m => MHD_str_equal_caseless_ m MHD_HTTP_METHOD_HEAD
   | none => false) ||
  decide (status_code < MHD_HTTP_OK) ||
  decide (status_code = MHD_HTTP_NO_CONTENT) ||
  decide (status_code = MHD_HTTP_NOT_MODIFIED)

/-- The stream-record mutation of lines 319-334: increment the
response's reference count, bind response and status code, and in the
no-body cases set `response_write_position` to the response's total
size. -/
def bindStream (st : H2Stream) (status_code : Nat)
    (response : MHD_Response) : H2Stream :=
  if noBodyCase st status_code then
    { st with
      response := some { response with
        reference_count := response.reference_count + 1 },
      response_code := status_code,
      response_write_position := response.total_size }
  else
    { st with
      response := some { response with
        reference_count := response.reference_count + 1 },
      response_code := status_code }

/-- Embedding of `h2_queue_response` (lines 302-347): fail when no
stream record exists for the current stream id; otherwise bind the
response, build the header block, and on success set the readiness
interest to write.  Returns the updated connection, the updated stream
record, and `MHD_YES`/`MHD_NO`. -/
def h2_queue_response (c : Conn) (status_code : Nat)
    (response : MHD_Response) (i : QueueInput) :
    Conn × Option H2Stream × Bool :=
  match i.stream with
  | none => (c, none, false)
  | some st =>
    if i.buildOk then
      ({ c with event_loop_info := EventLoopInfo.evWrite },
       some (bindStream st status_code response), true)
    else
      (c, some (bindStream st status_code response), false)

/-- C5: for every stream found by `h2_queue_response`, if the request
method is HEAD (case-insensitively) or the status code is below 200 or
equals 204 or 304, the bound stream's `response_write_position` equals
`response.total_size` immediately after the bind, regardless of the
declared body size; for all other methods and status codes the bind
leaves `response_write_position` unchanged. -/
theorem h2_queue_response_write_position (c : Conn) (status_code : Nat)
    (response : MHD_Response) (i : QueueInput) (st : H2Stream)
    (hstream : i.stream = some st) :
    (h2_queue_response c status_code response i).2.1 =
      some (bindStream st status_code response) ∧
    (noBodyCase st status_code = true →
      (bindStream st status_code response).response_write_position =
        response.total_size) ∧
    (noBodyCase st status_code = false →
      (bindStream st status_code response).response_write_position =
        st.response_write_position) := by
  refine ⟨?_, ?_, ?_⟩
  · unfold h2_queue_response
    simp only [hstream]
    split <;> rfl
  · intro hcond
    unfold bindStream
    rw [if_pos hcond]
  · intro hcond
    unfold bindStream
    rw [hcond]
    rfl

/-- Witness for C5: a HEAD-method stream bound to a 100-byte response
with status 200 gets `response_write_position = 100`, and a GET-method
stream with status 200 keeps its old position. -/
theorem h2_queue_response_write_position_witness :
    (h2_queue_response connW 200 { total_size := 100, reference_count := 1 }
        { stream := some { method := some MHD_HTTP_METHOD_HEAD,
                           response := none, response_code := 0,
                           response_write_position := 0 },
          buildOk := true }).2.1 =
      some (bindStream
        { method := some MHD_HTTP_METHOD_HEAD, response := none,
          response_code := 0, response_write_position := 0 }
        200 { total_size := 100, reference_count := 1 }) ∧
    (bindStream
        { method := some MHD_HTTP_METHOD_HEAD, response := none,
          response_code := 0, response_write_position := 0 }
        200 { total_size := 100, reference_count := 1 }
      ).response_write_position = 100 :=
  ⟨(h2_queue_response_write_position connW 200
      { total_size := 100, reference_count := 1 }
      { stream := some { method := some MHD_HTTP_METHOD_HEAD,
                         response := none, response_code := 0,
                         response_write_position := 0 },
        buildOk := true }
      { method := some MHD_HTTP_METHOD_HEAD, response := none,
        response_code := 0, response_write_position := 0 } rfl).1,
   (h2_queue_response_write_position connW 200
      { total_size := 100, reference_count := 1 }
      { stream := some { method := some MHD_HTTP_METHOD_HEAD,
                         response := none, response_code := 0,
                         response_write_position := 0 },
        buildOk := true }
      { method := some MHD_HTTP_METHOD_HEAD, response := none,
        response_code := 0, response_write_position := 0 } rfl).2.1
     (by decide)⟩
